import Mathlib

/-!
Shallow embedding of the attendance intake engine of the frcattend
repository, and proofs about its specification.

The embedding models the SQLite tables as Lean lists of row structures and
the view-layer scanning session (frcattend/view/take_attendance.py) as an
explicit state machine.  Dates and timestamps are abstracted to natural
numbers; strings stay strings.  SQL statements are translated operation by
operation from the queries in the source files.

The source files frcattend/model/events_checkins.py and
frcattend/model/students.py are not present in the repository snapshot
(only their import sites, callers and tests are), so the operations they
define are modelled from the specification text; each such definition
carries a doc comment starting with "Modelled from the spec:".
-/

namespace Frcattend

/-- Closed enumeration of event types (spec section 3: Meeting, Build,
Competition, Outreach, Virtual, None). -/
inductive EventType where
  | MEETING
  | BUILD
  | COMPETITION
  | OUTREACH
  | VIRTUAL
  | NONE
deriving DecidableEq, Repr

/-! ## Survey / Answer subsystem (frcattend/model/surveys.py, present in src) -/

/-- Row of the surveys table (class Survey in surveys.py).  The choices
column is stored as JSON text in SQLite; here it stays a list of strings. -/
structure Survey where
  title : String
  question : String
  choices : List String
  multiselect : Bool := false
  allow_freetext : Bool := false
  max_length : Option Nat := none
  replace : Bool := true
deriving DecidableEq, Repr

/-- Error raised by the SQLite driver.  A plain INSERT that violates a
primary key raises sqlite3.IntegrityError in Python; the embedding returns
it as an explicit error value. -/
inductive SqlError where
  | integrityError
deriving DecidableEq, Repr

/-- Survey.add in surveys.py: a plain INSERT INTO surveys with no conflict
clause.  The table declares title TEXT PRIMARY KEY, so inserting a survey
whose title already exists violates the primary key and the sqlite3
IntegrityError propagates to the caller; otherwise one row is appended and
the method returns rowcount == 1, that is true. -/
def Survey.add (tbl : List Survey) (s : Survey) : Except SqlError (List Survey × Bool) :=
  if tbl.any (fun r => r.title == s.title) then
    Except.error SqlError.integrityError
  else
    Except.ok (tbl ++ [s], true)

/-- Row of the answers table (class Answer in surveys.py). -/
structure Answer where
  student_id : String
  survey_title : String
  answer_date : Nat
  choices : List String
  freetext_answer : Option String := none
deriving DecidableEq, Repr

/-- Primary key comparison for the answers table:
PRIMARY KEY (student_id, survey_title, answer_date). -/
def Answer.sameKey (a b : Answer) : Bool :=
  a.student_id == b.student_id && a.survey_title == b.survey_title
    && a.answer_date == b.answer_date

/-- Match for the WHERE clause used by the UPDATE branch of Answer.add:
survey_title = :survey_title AND student_id = :student_id.  Note that the
clause has no answer_date condition. -/
def Answer.pairMatch (r a : Answer) : Bool :=
  r.survey_title == a.survey_title && r.student_id == a.student_id

/-- Insertion step of an insertion sort that orders answers by
answer_date descending (ORDER BY answer_date DESC). -/
def insertDesc (a : Answer) : List Answer → List Answer
  | [] => [a]
  | b :: bs => if b.answer_date ≤ a.answer_date then a :: b :: bs else b :: insertDesc a bs

/-- Sort a list of answers by answer_date descending
(ORDER BY answer_date DESC in the SELECT of get_by_title_and_student). -/
def sortByDateDesc : List Answer → List Answer
  | [] => []
  | a :: as => insertDesc a (sortByDateDesc as)

/-- Answer.get_by_title_and_student in surveys.py: SELECT every answer row
with the given survey title and student id, ordered newest first. -/
def Answer.get_by_title_and_student (tbl : List Answer) (survey_title student_id : String) :
    List Answer :=
  sortByDateDesc (tbl.filter
    (fun a => a.survey_title == survey_title && a.student_id == student_id))

/-- INSERT INTO answers for a table whose primary key carries
ON CONFLICT REPLACE: a conflicting row (same student, survey and date) is
deleted and the new row inserted. -/
def insertOrReplaceAnswer (tbl : List Answer) (a : Answer) : List Answer :=
  tbl.filter (fun r => !Answer.sameKey r a) ++ [a]

/-- UPDATE answers SET answer_date, choices, freetext_answer WHERE
survey_title = :survey_title AND student_id = :student_id, under the
table-level ON CONFLICT REPLACE clause of the primary key.  The WHERE
clause has no date condition, so every row of the student+survey pair is
updated to the same primary key; SQLite then deletes the rows made
conflicting, leaving a single row whose every column equals the new
values.  The second component is the statement rowcount, the number of
rows matched by the WHERE clause. -/
def updateAnswersByPair (tbl : List Answer) (a : Answer) : List Answer × Nat :=
  let matched := tbl.filter (fun r => Answer.pairMatch r a)
  if matched.length = 0 then (tbl, 0)
  else (tbl.filter (fun r => !Answer.pairMatch r a) ++ [a], matched.length)

/-- Answer.add in surveys.py.  Fetch the prior answers of the pair; if
there are none, or one of them has the same date as the new answer, or
replace is false, run the INSERT (whose conflict clause makes the same-day
case an overwrite); otherwise run the UPDATE.  Returns the list of rows
and rowcount == 1. -/
def Answer.add (tbl : List Answer) (a : Answer) (rep : Bool) : List Answer × Bool :=
  let prior_answers := Answer.get_by_title_and_student tbl a.survey_title a.student_id
  let prior_dates := prior_answers.map (fun p => p.answer_date)
  if prior_answers.length == 0 || prior_dates.contains a.answer_date || !rep then
    (insertOrReplaceAnswer tbl a, true)
  else
    let (tbl2, rowcount) := updateAnswersByPair tbl a
    (tbl2, rowcount == 1)

/-- Rows of the answers table belonging to one student+survey pair. -/
def pairRows (tbl : List Answer) (survey_title student_id : String) : List Answer :=
  tbl.filter (fun a => a.survey_title == survey_title && a.student_id == student_id)

/-! ## Students, events and checkins

The source file frcattend/model/events_checkins.py and the source file
frcattend/model/students.py are absent from the repository snapshot, so
the row types and operations below are modelled from the specification
text (spec sections 3, 4.2 and 6) and from the behaviour asserted by the
tests in tests/test_events.py and tests/test_checkins.py. -/

/-- Modelled from the spec: a row of the students table (class Student in
the missing file students.py).  Spec section 3: stable external id, name
fields, graduation year, optional deactivation date. -/
structure Student where
  student_id : String
  first_name : String
  last_name : String
  grad_year : Nat
  email : String
  deactivated_on : Option Nat := none
deriving DecidableEq, Repr

/-- Modelled from the spec: deactivating a student only sets the
deactivation date on the roster row; spec section 3 says deactivation does
not delete history. -/
def Student.deactivate (roster : List Student) (sid : String) (d : Nat) : List Student :=
  roster.map (fun st =>
    if st.student_id == sid then { st with deactivated_on := some d } else st)

/-- Modelled from the spec: a row of the events table (class Event in the
missing file events_checkins.py).  Spec section 3: (event_date,
event_type) unique together plus optional description, with a generated
identity (event_id is excluded from the bulk dump in database.py). -/
structure EventRow where
  event_id : Nat
  event_date : Nat
  event_type : EventType
  description : Option String := none
deriving DecidableEq, Repr

/-- Test for an existing (event_date, event_type) key in the events table
(the uniqueness key of spec section 3). -/
def eventKeyExists (tbl : List EventRow) (d : Nat) (t : EventType) : Bool :=
  tbl.any (fun e => e.event_date == d && decide (e.event_type = t))

/-- Modelled from the spec: Event.add in the missing file
events_checkins.py.  Spec section 4.2: returns a failure indicator, not an
exception, if the (date, type) key already exists, and success with a
generated identity otherwise; tests/test_events.py asserts the falsy and
truthy returns.  The generated identity is modelled as one past the table
length. -/
def Event.add (tbl : List EventRow) (d : Nat) (t : EventType) (desc : Option String) :
    List EventRow × Option Nat :=
  if eventKeyExists tbl d t then (tbl, none)
  else
    let eid := tbl.length + 1
    (tbl ++ [⟨eid, d, t, desc⟩], some eid)

/-- Modelled from the spec: a row of the checkins table (class Checkin in
the missing file events_checkins.py).  Spec sections 3 and 6: generated
id, student reference, event_type, exact timestamp deriving the event date
by truncation (kept here as an explicit event_date field), and a flag for
checkins recorded while the student was deactivated (the inactive column
of the bulk-load query in database.py and of tests/test_checkins.py). -/
structure Checkin where
  checkin_id : Nat
  student_id : String
  event_type : EventType
  event_date : Nat
  timestamp : Nat
  inactive : Bool := false
deriving DecidableEq, Repr

/-- Match of one checkin row against a (student, event_date, event_type)
key. -/
def checkinMatches (c : Checkin) (sid : String) (d : Nat) (t : EventType) : Bool :=
  c.student_id == sid && c.event_date == d && decide (c.event_type = t)

/-- Number of checkin rows for one (student, event_date, event_type) key. -/
def checkinCount (tbl : List Checkin) (sid : String) (d : Nat) (t : EventType) : Nat :=
  (tbl.filter (fun c => checkinMatches c sid d t)).length

/-- Invariant of spec section 3: for a given student and a given
(event_date, event_type), at most one Checkin exists. -/
def checkinInv (tbl : List Checkin) : Prop :=
  ∀ sid d t, checkinCount tbl sid d t ≤ 1

/-- Modelled from the spec: Checkin.add in the missing file
events_checkins.py appends the row with a generated identity and returns
that identity; spec section 4.2 reserves a zero identity for a write the
store rejects, a failure external to this embedding, so the modelled store
always accepts. -/
def Checkin.add (tbl : List Checkin) (c : Checkin) : List Checkin × Nat :=
  let cid := tbl.length + 1
  (tbl ++ [{ c with checkin_id := cid }], cid)

/-- Modelled from the spec: Checkin.get_checkedin_students in the missing
file events_checkins.py returns the student ids of every checkin matching
(event_date, event_type); spec section 4.2 calls it the exact set used to
seed a new session. -/
def Checkin.get_checkedin_students (tbl : List Checkin) (d : Nat) (t : EventType) :
    List String :=
  (tbl.filter (fun c => c.event_date == d && decide (c.event_type = t))).map
    (fun c => c.student_id)

/-! ## Intake loop (class ScanScreen in frcattend/view/take_attendance.py,
present in src)

The scanning session is embedded as an explicit state machine.  The
Python sets _checkedin_students and _scanned_students become Finset
String; the thread workers spawned by discard_scanned_code (one per
processed known code, each sleeping five seconds and then discarding the
code from the debounce set) become a pending_discards list whose entries
fire as separate steps.  Processing is composed in arrival order, as the
single-consumer funnel of spec section 5 prescribes: the debounce test of
scan_qr_codes, then the message handler on_scan_screen_qr_code_found,
then the survey-dialog decision of scan_qr_codes.  The session is assumed
to run within one calendar day, so the date derived by truncating a write
timestamp is the fixed field today. -/

/-- Phase of the scanning session (spec section 4.1 state machine). -/
inductive Phase where
  | Scanning
  | SurveyPaused
  | Exiting
deriving DecidableEq, Repr

/-- Outcome of processing one decoded identifier, as logged by
on_scan_screen_qr_code_found and _write_checkin_message. -/
inductive Outcome where
  | UnknownCode
  | DuplicateCheckin
  | Success
  | DeactivatedWarning
  | PersistenceFailure
deriving DecidableEq, Repr

/-- State of one scanning session: the fields of ScanScreen that the
intake loop reads and writes, plus the checkins table of the database and
the pending debounce-removal workers. -/
structure ScanState where
  students : List Student
  event_type : EventType
  survey : Option Survey
  checkedin_students : Finset String
  scanned_students : Finset String
  checkins : List Checkin
  pending_discards : List String
  phase : Phase
  today : Nat
  now : Nat
deriving DecidableEq

/-- Lookup of a decoded identifier in the roster mapping _students
(built in ScanScreen.__init__ from every student, inactive included). -/
def findStudent (roster : List Student) (sid : String) : Option Student :=
  roster.find? (fun st => st.student_id == sid)

/-- ScanScreen.on_scan_screen_qr_code_found: look the code up in the
roster; unknown codes log UnknownCode and return before any write and
before discard_scanned_code is called; a code in _checkedin_students logs
DuplicateCheckin without a write; otherwise the code joins
_checkedin_students, a Checkin with the current timestamp is persisted,
and _write_checkin_message logs Success, the deactivated warning, or the
persistence error when the returned identity is zero.  Both known
branches end by scheduling discard_scanned_code for the code. -/
def on_scan_screen_qr_code_found (s : ScanState) (code : String) : ScanState × Outcome :=
  match findStudent s.students code with
  | none => (s, Outcome.UnknownCode)
  | some student =>
    if code ∈ s.checkedin_students then
      ({ s with pending_discards := code :: s.pending_discards }, Outcome.DuplicateCheckin)
    else
      let row : Checkin :=
        { checkin_id := 0, student_id := code, event_type := s.event_type,
          event_date := s.today, timestamp := s.now,
          inactive := student.deactivated_on.isSome }
      let (tbl, cid) := Checkin.add s.checkins row
      let out :=
        if cid = 0 then Outcome.PersistenceFailure
        else if student.deactivated_on.isSome then Outcome.DeactivatedWarning
        else Outcome.Success
      ({ s with checkedin_students := insert code s.checkedin_students,
                checkins := tbl,
                now := s.now + 1,
                pending_discards := code :: s.pending_discards }, out)

/-- Decision of scan_qr_codes to open the survey dialog: a survey is
attached, the code is a key of _students, and that student has no
deactivation date.  The dedup set _checkedin_students is not consulted. -/
def surveyGateCond (s : ScanState) (code : String) : Bool :=
  s.survey.isSome &&
    (match findStudent s.students code with
     | some st => st.deactivated_on.isNone
     | none => false)

/-- One iteration of the while loop of scan_qr_codes, given the decoded
value of the frame (none models an empty decode, a no-op tick).  A code
already in the debounce set _scanned_students is ignored entirely;
otherwise it is added to the set, the QrCodeFound message is processed,
and when the survey condition holds the loop hands control to the survey
dialog, pausing scanning. -/
def scanTick (s : ScanState) (qr : Option String) : ScanState × Option Outcome :=
  match qr with
  | none => (s, none)
  | some code =>
    if code ∈ s.scanned_students then (s, none)
    else
      let s1 := { s with scanned_students := insert code s.scanned_students }
      let r := on_scan_screen_qr_code_found s1 code
      if surveyGateCond s1 code then
        ({ r.1 with phase := Phase.SurveyPaused }, some r.2)
      else
        (r.1, some r.2)

/-- ScanScreen.set_event_type_and_start_scanning plus the initialization
at the top of scan_qr_codes: record the Event idempotently, seed
_checkedin_students from every existing checkin of (today, event_type),
start with an empty debounce set, and begin scanning. -/
def set_event_type_and_start_scanning (roster : List Student) (events : List EventRow)
    (ckins : List Checkin) (today : Nat) (etype : EventType) (survey : Option Survey) :
    ScanState × List EventRow :=
  ({ students := roster, event_type := etype, survey := survey,
     checkedin_students := (Checkin.get_checkedin_students ckins today etype).toFinset,
     scanned_students := ∅, checkins := ckins, pending_discards := [],
     phase := Phase.Scanning, today := today, now := 0 },
   (Event.add events today etype none).1)

/-- ScanScreen.discard_scanned_code, at the moment its five-second sleep
elapses: the worker discards the code from the debounce set and is no
longer pending. -/
def discard_scanned_code (s : ScanState) (code : String) : ScanState :=
  { s with scanned_students := s.scanned_students.erase code,
           pending_discards := s.pending_discards.erase code }

/-- ScanScreen.action_exit_scan_mode, after the password dialog returns:
on success the screen is popped, ending the session; on failure
scan_qr_codes is started again, which resets the debounce set.  Nothing
cancels the pending discard_scanned_code workers. -/
def action_exit_scan_mode (s : ScanState) (pwSuccess : Bool) : ScanState :=
  if pwSuccess then { s with phase := Phase.Exiting }
  else { s with phase := Phase.Scanning, scanned_students := ∅ }

/-- Events that drive one scanning session. -/
inductive SessionEvent where
  | tick (qr : Option String)
  | surveyDone
  | discardFires (code : String)
  | exitRequest (pwSuccess : Bool)
deriving DecidableEq, Repr

/-- One step of the session.  Scan ticks and exit requests act while
scanning; TakeSurveyDialog.on_ok_button_pressed and
on_cancel_button_pressed both end in restart_scanning, which restarts
scan_qr_codes with a fresh empty debounce set; a pending
discard_scanned_code worker may fire in any phase, because its thread is
never cancelled. -/
def sessionStep (s : ScanState) (e : SessionEvent) : ScanState × Option Outcome :=
  match e with
  | SessionEvent.tick qr =>
    if s.phase = Phase.Scanning then scanTick s qr else (s, none)
  | SessionEvent.surveyDone =>
    if s.phase = Phase.SurveyPaused then
      ({ s with phase := Phase.Scanning, scanned_students := ∅ }, none)
    else (s, none)
  | SessionEvent.discardFires code =>
    if code ∈ s.pending_discards then (discard_scanned_code s code, none) else (s, none)
  | SessionEvent.exitRequest ok =>
    if s.phase = Phase.Scanning then (action_exit_scan_mode s ok, none) else (s, none)

/-- Run a session through a list of events. -/
def runSession (s : ScanState) (es : List SessionEvent) : ScanState :=
  es.foldl (fun st e => (sessionStep st e).1) s

/-- The dedup set covers every student already recorded for the session
key: this together with the table invariant is what each step preserves. -/
def dedupCovers (s : ScanState) : Prop :=
  ∀ sid, 0 < checkinCount s.checkins sid s.today s.event_type
    → sid ∈ s.checkedin_students

/-- Session invariant: the checkins table has at most one row per key,
and the dedup set covers the session key. -/
def sessionInv (s : ScanState) : Prop :=
  checkinInv s.checkins ∧ dedupCovers s

/-- The checkin row written by the message handler for a code. -/
def writtenRow (s : ScanState) (code : String) (st : Student) : Checkin :=
  { checkin_id := s.checkins.length + 1, student_id := code,
    event_type := s.event_type, event_date := s.today, timestamp := s.now,
    inactive := st.deactivated_on.isSome }

/-! ## Example fixtures used by witnesses and counterexamples -/

/-- Example active student. -/
def annStudent : Student :=
  { student_id := "A", first_name := "Ann", last_name := "Lee",
    grad_year := 2027, email := "ann" }

/-- Example deactivated student. -/
def deeStudent : Student :=
  { student_id := "D", first_name := "Dee", last_name := "Ray",
    grad_year := 2027, email := "dee", deactivated_on := some 3 }

/-- Example survey. -/
def demoSurvey : Survey :=
  { title := "Subgroup", question := "Which subgroup?", choices := ["Mario Kart", "Zelda"] }

/-- Example session state: survey attached, student A active and already
in the per-event dedup set, student D deactivated. -/
def demoState : ScanState :=
  { students := [annStudent, deeStudent], event_type := EventType.MEETING,
    survey := some demoSurvey, checkedin_students := {"A"},
    scanned_students := ∅, checkins := [], pending_discards := [],
    phase := Phase.Scanning, today := 10, now := 0 }

/-- Example session state with a pending debounce-removal worker for the
already processed code A. -/
def exitDemoState : ScanState :=
  { students := [annStudent], event_type := EventType.MEETING, survey := none,
    checkedin_students := {"A"}, scanned_students := {"A"},
    checkins := [{ checkin_id := 1, student_id := "A", event_type := EventType.MEETING,
                   event_date := 10, timestamp := 0, inactive := false }],
    pending_discards := ["A"], phase := Phase.Scanning, today := 10, now := 1 }

/-- Example stored checkin row of student A. -/
def annCheckin : Checkin :=
  { checkin_id := 1, student_id := "A", event_type := EventType.MEETING,
    event_date := 10, timestamp := 0, inactive := false }

/-- Example session state holding the stored row of student A, with the
deactivated student D not yet checked in. -/
def warnDemoState : ScanState :=
  { demoState with checkins := [annCheckin] }

/-! ## Lemmas on the answers table -/

theorem length_insertDesc (a : Answer) (l : List Answer) :
    (insertDesc a l).length = l.length + 1 := by
  induction l with
  | nil => rfl
  | cons b bs ih =>
    by_cases h : b.answer_date ≤ a.answer_date
    · simp [insertDesc, h]
    · simp [insertDesc, h, ih]

theorem mem_insertDesc {b a : Answer} {l : List Answer} :
    b ∈ insertDesc a l ↔ b = a ∨ b ∈ l := by
  induction l with
  | nil => simp [insertDesc]
  | cons c cs ih =>
    by_cases h : c.answer_date ≤ a.answer_date
    · simp only [insertDesc, if_pos h, List.mem_cons]
    · simp only [insertDesc, if_neg h, List.mem_cons, ih]
      tauto

theorem length_sortByDateDesc (l : List Answer) :
    (sortByDateDesc l).length = l.length := by
  induction l with
  | nil => rfl
  | cons a as ih => simp [sortByDateDesc, length_insertDesc, ih]

theorem mem_sortByDateDesc {a : Answer} {l : List Answer} :
    a ∈ sortByDateDesc l ↔ a ∈ l := by
  induction l with
  | nil => simp [sortByDateDesc]
  | cons b bs ih => simp [sortByDateDesc, mem_insertDesc, ih]

theorem get_by_eq_sort_pairRows (tbl : List Answer) (t s : String) :
    Answer.get_by_title_and_student tbl t s = sortByDateDesc (pairRows tbl t s) := rfl

theorem pairRows_append (l1 l2 : List Answer) (t s : String) :
    pairRows (l1 ++ l2) t s = pairRows l1 t s ++ pairRows l2 t s :=
  List.filter_append ..

theorem pairRows_single {a : Answer} {t s : String}
    (ht : a.survey_title = t) (hs : a.student_id = s) :
    pairRows [a] t s = [a] := by
  simp [pairRows, ht, hs]

theorem not_sameKey_of_not_pair {r a : Answer}
    (h : ¬(r.survey_title = a.survey_title ∧ r.student_id = a.student_id)) :
    Answer.sameKey r a = false := by
  simp only [Answer.sameKey, Bool.and_eq_false_imp, Bool.and_eq_true, beq_iff_eq,
    Bool.and_eq_false_iff, beq_eq_false_iff_ne, ne_eq]
  by_cases h1 : r.student_id = a.student_id
  · by_cases h2 : r.survey_title = a.survey_title
    · exact absurd ⟨h2, h1⟩ h
    · simp [h1, h2]
  · simp [h1]

/-- Membership in the date list of the sorted prior answers agrees with
membership in the date list of the unsorted pair rows. -/
theorem mem_dates_sort {x : Nat} {l : List Answer} :
    x ∈ (sortByDateDesc l).map (fun r => r.answer_date)
      ↔ x ∈ l.map (fun r => r.answer_date) := by
  simp only [List.mem_map]
  constructor
  · rintro ⟨r, hr, hx⟩
    exact ⟨r, mem_sortByDateDesc.mp hr, hx⟩
  · rintro ⟨r, hr, hx⟩
    exact ⟨r, mem_sortByDateDesc.mpr hr, hx⟩

/-- The INSERT branch of Answer.add: taken when the pair has no prior
rows, or a prior row shares the date, or replace is false. -/
theorem Answer.add_insert_branch (tbl : List Answer) (a : Answer) (rep : Bool)
    (h : pairRows tbl a.survey_title a.student_id = [] ∨
      a.answer_date ∈ (pairRows tbl a.survey_title a.student_id).map
        (fun r => r.answer_date) ∨ rep = false) :
    Answer.add tbl a rep = (insertOrReplaceAnswer tbl a, true) := by
  have hcond : ((Answer.get_by_title_and_student tbl a.survey_title a.student_id).length == 0
      || ((Answer.get_by_title_and_student tbl a.survey_title a.student_id).map
            (fun p => p.answer_date)).contains a.answer_date
      || !rep) = true := by
    rcases h with h | h | h
    · rw [get_by_eq_sort_pairRows, h]
      simp [sortByDateDesc]
    · rw [get_by_eq_sort_pairRows]
      have : a.answer_date ∈ (sortByDateDesc
          (pairRows tbl a.survey_title a.student_id)).map (fun r => r.answer_date) :=
        mem_dates_sort.mpr h
      simp [this]
    · simp [h]
  simp only [Answer.add, hcond, if_true]

/-- The UPDATE branch of Answer.add: taken when the pair has prior rows,
none shares the date, and replace is true. -/
theorem Answer.add_update_branch (tbl : List Answer) (a : Answer)
    (h0 : pairRows tbl a.survey_title a.student_id ≠ [])
    (hd : a.answer_date ∉ (pairRows tbl a.survey_title a.student_id).map
      (fun r => r.answer_date)) :
    Answer.add tbl a true
      = (tbl.filter (fun r => !Answer.pairMatch r a) ++ [a],
         (pairRows tbl a.survey_title a.student_id).length == 1) := by
  have hmatched : tbl.filter (fun r => Answer.pairMatch r a)
      = pairRows tbl a.survey_title a.student_id := rfl
  have hlen : (Answer.get_by_title_and_student tbl a.survey_title a.student_id).length
      = (pairRows tbl a.survey_title a.student_id).length := by
    rw [get_by_eq_sort_pairRows, length_sortByDateDesc]
  have hcond : ((Answer.get_by_title_and_student tbl a.survey_title a.student_id).length == 0
      || ((Answer.get_by_title_and_student tbl a.survey_title a.student_id).map
            (fun p => p.answer_date)).contains a.answer_date
      || !true) = false := by
    have h1 : ((Answer.get_by_title_and_student tbl a.survey_title a.student_id).length == 0)
        = false := by
      rw [hlen]
      simp only [beq_eq_false_iff_ne, ne_eq, List.length_eq_zero]
      exact h0
    have h2 : (((Answer.get_by_title_and_student tbl a.survey_title a.student_id).map
        (fun p => p.answer_date)).contains a.answer_date) = false := by
      have hx : a.answer_date ∉ (Answer.get_by_title_and_student tbl a.survey_title
          a.student_id).map (fun p => p.answer_date) := by
        rw [get_by_eq_sort_pairRows]
        exact fun hx => hd (mem_dates_sort.mp hx)
      simpa using hx
    rw [h1, h2]
    rfl
  simp only [Answer.add, hcond, if_false, Bool.false_eq_true, updateAnswersByPair]
  rw [hmatched]
  have hml : (pairRows tbl a.survey_title a.student_id).length = 0 ↔ False := by
    simp [List.length_eq_zero, h0]
  simp [hml]

/-- An INSERT whose row conflicts with no stored key appends the row. -/
theorem insertOrReplaceAnswer_no_conflict (tbl : List Answer) (a : Answer)
    (h : ∀ r ∈ tbl, Answer.sameKey r a = false) :
    insertOrReplaceAnswer tbl a = tbl ++ [a] := by
  unfold insertOrReplaceAnswer
  congr 1
  apply List.filter_eq_self.mpr
  intro r hr
  simp [h r hr]

theorem mem_pairRows {r : Answer} {tbl : List Answer} {t s : String} :
    r ∈ pairRows tbl t s ↔ r ∈ tbl ∧ r.survey_title = t ∧ r.student_id = s := by
  simp [pairRows, List.mem_filter, and_assoc]

theorem not_pairMatch_of_not_pair {r a : Answer}
    (h : ¬(r.survey_title = a.survey_title ∧ r.student_id = a.student_id)) :
    Answer.pairMatch r a = false := by
  by_cases h1 : r.survey_title = a.survey_title
  · by_cases h2 : r.student_id = a.student_id
    · exact absurd ⟨h1, h2⟩ h
    · simp [Answer.pairMatch, h1, h2]
  · simp [Answer.pairMatch, h1]

/-- Rows outside the pair of a new answer cannot share its key or match
the pair WHERE clause; over a table whose pair rows are exhausted both
filters of Answer.add keep every row. -/
theorem filters_id_of_clean {tbl : List Answer} {a : Answer}
    (h : pairRows tbl a.survey_title a.student_id = []) :
    tbl.filter (fun r => !Answer.sameKey r a) = tbl ∧
    tbl.filter (fun r => !Answer.pairMatch r a) = tbl := by
  have hnp : ∀ r ∈ tbl, ¬(r.survey_title = a.survey_title ∧ r.student_id = a.student_id) := by
    intro r hr hp
    have : r ∈ pairRows tbl a.survey_title a.student_id := mem_pairRows.mpr ⟨hr, hp⟩
    rw [h] at this
    simp at this
  constructor
  · apply List.filter_eq_self.mpr
    intro r hr
    simp [not_sameKey_of_not_pair (hnp r hr)]
  · apply List.filter_eq_self.mpr
    intro r hr
    simp [not_pairMatch_of_not_pair (hnp r hr)]

/-- Answer.add on a table with no prior rows of the pair is a plain
append, whatever the replace argument. -/
theorem Answer.add_no_prior (tbl : List Answer) (a : Answer) (rep : Bool)
    (h : pairRows tbl a.survey_title a.student_id = []) :
    Answer.add tbl a rep = (tbl ++ [a], true) := by
  rw [Answer.add_insert_branch tbl a rep (Or.inl h)]
  unfold insertOrReplaceAnswer
  rw [(filters_id_of_clean h).1]

/-- C4: for a student+survey pair with no stored answers, two Answer.add
calls on the same date leave exactly one row for the pair, holding the
second call, for every combination of replace arguments; across two
distinct dates, replace false leaves both rows and replace true leaves
only the latest row. -/
theorem C4_answer_add_replace_semantics
    (tbl : List Answer) (a1 a2 : Answer) (r1 r2 : Bool)
    (hpair : pairRows tbl a1.survey_title a1.student_id = [])
    (ht : a2.survey_title = a1.survey_title) (hs : a2.student_id = a1.student_id) :
    (a2.answer_date = a1.answer_date →
      pairRows (Answer.add (Answer.add tbl a1 r1).1 a2 r2).1
        a1.survey_title a1.student_id = [a2]) ∧
    (a2.answer_date ≠ a1.answer_date →
      pairRows (Answer.add (Answer.add tbl a1 false).1 a2 false).1
        a1.survey_title a1.student_id = [a1, a2]) ∧
    (a2.answer_date ≠ a1.answer_date →
      pairRows (Answer.add (Answer.add tbl a1 true).1 a2 true).1
        a1.survey_title a1.student_id = [a2]) := by
  have hclean2 : pairRows tbl a2.survey_title a2.student_id = [] := by
    rw [ht, hs]; exact hpair
  have hp1 : pairRows (tbl ++ [a1]) a1.survey_title a1.student_id = [a1] := by
    rw [pairRows_append, hpair, pairRows_single rfl rfl]
    rfl
  have hp1x : pairRows (tbl ++ [a1]) a2.survey_title a2.student_id = [a1] := by
    rw [ht, hs]; exact hp1
  have hadd1 : ∀ rep : Bool, (Answer.add tbl a1 rep).1 = tbl ++ [a1] := by
    intro rep
    rw [Answer.add_no_prior tbl a1 rep hpair]
  refine ⟨?_, ?_, ?_⟩
  · intro hdate
    have hmem : a2.answer_date ∈ (pairRows (tbl ++ [a1]) a2.survey_title
        a2.student_id).map (fun r => r.answer_date) := by
      rw [hp1x]
      simp [hdate]
    rw [hadd1 r1, Answer.add_insert_branch (tbl ++ [a1]) a2 r2 (Or.inr (Or.inl hmem))]
    have hkey : Answer.sameKey a1 a2 = true := by
      simp [Answer.sameKey, ht, hs, hdate]
    have hins : insertOrReplaceAnswer (tbl ++ [a1]) a2 = tbl ++ [a2] := by
      unfold insertOrReplaceAnswer
      rw [List.filter_append, (filters_id_of_clean hclean2).1]
      simp [hkey]
    rw [hins, pairRows_append, hpair, pairRows_single ht hs]
    rfl
  · intro hdate
    have hkey : Answer.sameKey a1 a2 = false := by
      have hdd : (a1.answer_date == a2.answer_date) = false := by
        simp only [beq_eq_false_iff_ne, ne_eq]
        exact fun hx => hdate hx.symm
      simp [Answer.sameKey, hdd]
    have hnk : ∀ r ∈ tbl ++ [a1], Answer.sameKey r a2 = false := by
      intro r hr
      rcases List.mem_append.mp hr with hr | hr
      · apply not_sameKey_of_not_pair
        rintro ⟨h1, h2⟩
        have : r ∈ pairRows tbl a2.survey_title a2.student_id :=
          mem_pairRows.mpr ⟨hr, h1, h2⟩
        rw [hclean2] at this
        simp at this
      · rw [List.mem_singleton.mp hr]
        exact hkey
    rw [hadd1 false,
      Answer.add_insert_branch (tbl ++ [a1]) a2 false (Or.inr (Or.inr rfl)),
      insertOrReplaceAnswer_no_conflict (tbl ++ [a1]) a2 hnk,
      List.append_assoc, pairRows_append, hpair]
    have : pairRows ([a1] ++ [a2]) a1.survey_title a1.student_id = [a1, a2] := by
      simp [pairRows, ht, hs]
    rw [this]
    rfl
  · intro hdate
    have hne : pairRows (tbl ++ [a1]) a2.survey_title a2.student_id ≠ [] := by
      rw [hp1x]
      simp
    have hd : a2.answer_date ∉ (pairRows (tbl ++ [a1]) a2.survey_title
        a2.student_id).map (fun r => r.answer_date) := by
      rw [hp1x]
      simp [hdate]
    rw [hadd1 true, Answer.add_update_branch (tbl ++ [a1]) a2 hne hd]
    have hpm : Answer.pairMatch a1 a2 = true := by
      simp [Answer.pairMatch, ht, hs]
    have hfil : (tbl ++ [a1]).filter (fun r => !Answer.pairMatch r a2) = tbl := by
      rw [List.filter_append, (filters_id_of_clean hclean2).2]
      simp [hpm]
    rw [hfil, pairRows_append, hpair, pairRows_single ht hs]
    rfl

/-- C4 witness at a concrete table: the pair starts empty, the same-day
case keeps one row with the later values, and the two-date cases keep two
rows under replace false and one under replace true. -/
theorem C4_answer_add_replace_semantics_witness :
    pairRows (Answer.add (Answer.add []
        ⟨"S1", "T", 5, ["Mario Kart"], none⟩ true).1
        ⟨"S1", "T", 5, ["Zelda"], none⟩ true).1 "T" "S1"
      = [⟨"S1", "T", 5, ["Zelda"], none⟩] ∧
    pairRows (Answer.add (Answer.add []
        ⟨"S1", "T", 5, ["Mario Kart"], none⟩ false).1
        ⟨"S1", "T", 7, ["Zelda"], none⟩ false).1 "T" "S1"
      = [⟨"S1", "T", 5, ["Mario Kart"], none⟩, ⟨"S1", "T", 7, ["Zelda"], none⟩] ∧
    pairRows (Answer.add (Answer.add []
        ⟨"S1", "T", 5, ["Mario Kart"], none⟩ true).1
        ⟨"S1", "T", 7, ["Zelda"], none⟩ true).1 "T" "S1"
      = [⟨"S1", "T", 7, ["Zelda"], none⟩] := by
  refine ⟨?_, ?_, ?_⟩
  · exact (C4_answer_add_replace_semantics []
      ⟨"S1", "T", 5, ["Mario Kart"], none⟩ ⟨"S1", "T", 5, ["Zelda"], none⟩
      true true rfl rfl rfl).1 rfl
  · exact (C4_answer_add_replace_semantics []
      ⟨"S1", "T", 5, ["Mario Kart"], none⟩ ⟨"S1", "T", 7, ["Zelda"], none⟩
      false false rfl rfl rfl).2.1 (by decide)
  · exact (C4_answer_add_replace_semantics []
      ⟨"S1", "T", 5, ["Mario Kart"], none⟩ ⟨"S1", "T", 7, ["Zelda"], none⟩
      true true rfl rfl rfl).2.2 (by decide)

/-- C5 as amended: when replace is true, the pair has prior rows and none
is dated today, the UPDATE statement of Answer.add carries no date
restriction, so it rewrites every prior row of the pair; the pair is left
with exactly one row holding the new values, rows of other pairs are
untouched, and the reported success is rowcount == 1, false when more
than one prior row was hit. -/
theorem C5_replace_overwrites_every_prior_row
    (tbl : List Answer) (a : Answer)
    (hne : pairRows tbl a.survey_title a.student_id ≠ [])
    (hd : a.answer_date ∉ (pairRows tbl a.survey_title a.student_id).map
      (fun r => r.answer_date)) :
    pairRows (Answer.add tbl a true).1 a.survey_title a.student_id = [a] ∧
    (Answer.add tbl a true).1.filter (fun r => !Answer.pairMatch r a)
      = tbl.filter (fun r => !Answer.pairMatch r a) ∧
    (Answer.add tbl a true).2
      = ((pairRows tbl a.survey_title a.student_id).length == 1) := by
  have heq := Answer.add_update_branch tbl a hne hd
  rw [heq]
  refine ⟨?_, ?_, rfl⟩
  · rw [pairRows_append]
    have hnil : pairRows (tbl.filter (fun r => !Answer.pairMatch r a))
        a.survey_title a.student_id = [] := by
      unfold pairRows
      rw [List.filter_filter]
      apply List.filter_eq_nil_iff.mpr
      intro x hx
      simp [Answer.pairMatch, Bool.and_comm]
    rw [hnil, pairRows_single rfl rfl]
    rfl
  · rw [List.filter_append, List.filter_filter]
    have hself : Answer.pairMatch a a = true := by
      simp [Answer.pairMatch]
    simp [hself]

/-- C5 witness: one pair with a single prior row dated 1; an add dated 3
with replace true leaves the single new row and reports success. -/
theorem C5_replace_overwrites_every_prior_row_witness :
    pairRows (Answer.add [⟨"S1", "T", 1, ["old"], none⟩]
        ⟨"S1", "T", 3, ["new"], none⟩ true).1 "T" "S1"
      = [⟨"S1", "T", 3, ["new"], none⟩] ∧
    (Answer.add [⟨"S1", "T", 1, ["old"], none⟩]
        ⟨"S1", "T", 3, ["new"], none⟩ true).1.filter
          (fun r => !Answer.pairMatch r ⟨"S1", "T", 3, ["new"], none⟩)
      = ([⟨"S1", "T", 1, ["old"], none⟩] : List Answer).filter
          (fun r => !Answer.pairMatch r ⟨"S1", "T", 3, ["new"], none⟩) ∧
    (Answer.add [⟨"S1", "T", 1, ["old"], none⟩]
        ⟨"S1", "T", 3, ["new"], none⟩ true).2 = true :=
  C5_replace_overwrites_every_prior_row
    [⟨"S1", "T", 1, ["old"], none⟩] ⟨"S1", "T", 3, ["new"], none⟩
    (by decide) (by decide)

/-- C5 counterexample to the claim as stated: with two prior rows of the
pair, dated 1 and 2, an add dated 3 with replace true does not leave the
older row unchanged — the row dated 1 disappears from the table, because
the UPDATE hits every row of the pair, not only the most recent one. -/
theorem C5_counterexample_update_hits_older_rows :
    (⟨"S1", "T", 1, ["old1"], none⟩ : Answer) ∈
      ([⟨"S1", "T", 1, ["old1"], none⟩, ⟨"S1", "T", 2, ["old2"], none⟩] : List Answer) ∧
    (⟨"S1", "T", 1, ["old1"], none⟩ : Answer) ∉
      (Answer.add [⟨"S1", "T", 1, ["old1"], none⟩, ⟨"S1", "T", 2, ["old2"], none⟩]
        ⟨"S1", "T", 3, ["new"], none⟩ true).1 := by
  decide

/-! ## Theorems on events and surveys -/

/-- C8: Event.add on an existing (event_date, event_type) key returns the
failure indicator and the events table gains no row; on a fresh key it
returns the generated identity and appends exactly one row. -/
theorem C8_event_add_duplicate_is_failure (tbl : List EventRow) (d : Nat)
    (t : EventType) (desc : Option String) :
    (eventKeyExists tbl d t = true → Event.add tbl d t desc = (tbl, none)) ∧
    (eventKeyExists tbl d t = false →
      Event.add tbl d t desc
        = (tbl ++ [⟨tbl.length + 1, d, t, desc⟩], some (tbl.length + 1))) := by
  constructor <;> intro h <;> simp [Event.add, h]

/-- C8 witness: a duplicate (date 10, MEETING) add fails and leaves the
table as it was; the same add on the empty table succeeds with identity 1. -/
theorem C8_event_add_duplicate_is_failure_witness :
    Event.add [⟨1, 10, EventType.MEETING, none⟩] 10 EventType.MEETING none
      = ([⟨1, 10, EventType.MEETING, none⟩], none) ∧
    Event.add [] 10 EventType.MEETING none
      = ([⟨1, 10, EventType.MEETING, none⟩], some 1) :=
  ⟨(C8_event_add_duplicate_is_failure [⟨1, 10, EventType.MEETING, none⟩]
      10 EventType.MEETING none).1 (by decide),
   (C8_event_add_duplicate_is_failure [] 10 EventType.MEETING none).2 (by decide)⟩

/-- C10: Survey.add on a duplicate title does not signal the duplicate by
its return value: the insert violates the title primary key, which has no
conflict clause, and the integrity error propagates to the caller; by
contrast Event.add reports a duplicate key through its returned failure
indicator without an error. -/
theorem C10_survey_add_propagates_integrity_error
    (tbl : List Survey) (s : Survey)
    (hdup : tbl.any (fun r => r.title == s.title) = true)
    (etbl : List EventRow) (d : Nat) (t : EventType) (desc : Option String)
    (hkey : eventKeyExists etbl d t = true) :
    Survey.add tbl s = Except.error SqlError.integrityError ∧
    Event.add etbl d t desc = (etbl, none) := by
  constructor
  · simp [Survey.add, hdup]
  · simp [Event.add, hkey]

/-- C10 witness: re-adding the example survey raises the integrity error
while re-adding the example event returns the failure indicator. -/
theorem C10_survey_add_propagates_integrity_error_witness :
    Survey.add [demoSurvey] demoSurvey = Except.error SqlError.integrityError ∧
    Event.add [⟨1, 10, EventType.MEETING, none⟩] 10 EventType.MEETING none
      = ([⟨1, 10, EventType.MEETING, none⟩], none) :=
  C10_survey_add_propagates_integrity_error [demoSurvey] demoSurvey (by decide)
    [⟨1, 10, EventType.MEETING, none⟩] 10 EventType.MEETING none (by decide)

/-! ## Lemmas on the checkins table and the scanning session -/

theorem checkinMatches_iff {c : Checkin} {sid : String} {d : Nat} {t : EventType} :
    checkinMatches c sid d t = true
      ↔ c.student_id = sid ∧ c.event_date = d ∧ c.event_type = t := by
  simp [checkinMatches, and_assoc]

theorem checkinMatches_false {c : Checkin} {sid : String} {d : Nat} {t : EventType}
    (h : ¬(c.student_id = sid ∧ c.event_date = d ∧ c.event_type = t)) :
    checkinMatches c sid d t = false := by
  cases hb : checkinMatches c sid d t
  · rfl
  · exact absurd (checkinMatches_iff.mp hb) h

theorem checkinCount_append_single (tbl : List Checkin) (c : Checkin)
    (sid : String) (d : Nat) (t : EventType) :
    checkinCount (tbl ++ [c]) sid d t
      = checkinCount tbl sid d t
        + (if c.student_id = sid ∧ c.event_date = d ∧ c.event_type = t then 1 else 0) := by
  simp only [checkinCount, List.filter_append, List.length_append]
  congr 1
  by_cases h : c.student_id = sid ∧ c.event_date = d ∧ c.event_type = t
  · rw [if_pos h]
    simp [List.filter, checkinMatches_iff.mpr h]
  · rw [if_neg h]
    simp [List.filter, checkinMatches_false h]

theorem mem_get_checkedin_students {tbl : List Checkin} {d : Nat} {t : EventType}
    {sid : String} :
    sid ∈ Checkin.get_checkedin_students tbl d t ↔ 0 < checkinCount tbl sid d t := by
  have hcnt : checkinCount tbl sid d t
      = tbl.countP (fun c => checkinMatches c sid d t) :=
    (List.countP_eq_length_filter ..).symm
  rw [hcnt, List.countP_pos_iff]
  simp only [Checkin.get_checkedin_students, List.mem_map, List.mem_filter]
  constructor
  · rintro ⟨c, ⟨hmem, hdt⟩, rfl⟩
    refine ⟨c, hmem, checkinMatches_iff.mpr ?_⟩
    simp only [Bool.and_eq_true, beq_iff_eq, decide_eq_true_eq] at hdt
    exact ⟨rfl, hdt.1, hdt.2⟩
  · rintro ⟨c, hmem, hm⟩
    obtain ⟨h1, h2, h3⟩ := checkinMatches_iff.mp hm
    exact ⟨c, ⟨hmem, by simp [h2, h3]⟩, h1⟩

theorem oqf_unknown {s : ScanState} {code : String}
    (h : findStudent s.students code = none) :
    on_scan_screen_qr_code_found s code = (s, Outcome.UnknownCode) := by
  simp [on_scan_screen_qr_code_found, h]

theorem oqf_duplicate {s : ScanState} {code : String} {st : Student}
    (h : findStudent s.students code = some st)
    (hc : code ∈ s.checkedin_students) :
    on_scan_screen_qr_code_found s code
      = ({ s with pending_discards := code :: s.pending_discards },
         Outcome.DuplicateCheckin) := by
  simp [on_scan_screen_qr_code_found, h, hc]

theorem oqf_write {s : ScanState} {code : String} {st : Student}
    (h : findStudent s.students code = some st)
    (hc : code ∉ s.checkedin_students) :
    on_scan_screen_qr_code_found s code
      = ({ s with checkedin_students := insert code s.checkedin_students,
                  checkins := s.checkins ++ [writtenRow s code st],
                  now := s.now + 1,
                  pending_discards := code :: s.pending_discards },
         if st.deactivated_on.isSome then Outcome.DeactivatedWarning
         else Outcome.Success) := by
  simp [on_scan_screen_qr_code_found, h, hc, Checkin.add, writtenRow]

/-- The message handler leaves the roster, session key and phase alone. -/
theorem oqf_fields (s : ScanState) (code : String) :
    (on_scan_screen_qr_code_found s code).1.students = s.students ∧
    (on_scan_screen_qr_code_found s code).1.event_type = s.event_type ∧
    (on_scan_screen_qr_code_found s code).1.today = s.today ∧
    (on_scan_screen_qr_code_found s code).1.phase = s.phase ∧
    (on_scan_screen_qr_code_found s code).1.survey = s.survey ∧
    (on_scan_screen_qr_code_found s code).1.scanned_students = s.scanned_students := by
  cases hf : findStudent s.students code with
  | none => rw [oqf_unknown hf]; exact ⟨rfl, rfl, rfl, rfl, rfl, rfl⟩
  | some st =>
    by_cases hc : code ∈ s.checkedin_students
    · rw [oqf_duplicate hf hc]
      exact ⟨rfl, rfl, rfl, rfl, rfl, rfl⟩
    · rw [oqf_write hf hc]
      exact ⟨rfl, rfl, rfl, rfl, rfl, rfl⟩

/-- The message handler preserves the session invariant. -/
theorem oqf_preserves_inv {s : ScanState} (code : String) (hinv : sessionInv s) :
    sessionInv (on_scan_screen_qr_code_found s code).1 := by
  obtain ⟨hchk, hcov⟩ := hinv
  cases hf : findStudent s.students code with
  | none => rw [oqf_unknown hf]; exact ⟨hchk, hcov⟩
  | some st =>
    by_cases hc : code ∈ s.checkedin_students
    · rw [oqf_duplicate hf hc]
      exact ⟨hchk, fun sid h => hcov sid h⟩
    · rw [oqf_write hf hc]
      have hzero : checkinCount s.checkins code s.today s.event_type = 0 := by
        by_contra hnz
        exact hc (hcov code (Nat.pos_of_ne_zero hnz))
      constructor
      · intro sid d t
        show checkinCount (s.checkins ++ [writtenRow s code st]) sid d t ≤ 1
        rw [checkinCount_append_single]
        by_cases h : (writtenRow s code st).student_id = sid
            ∧ (writtenRow s code st).event_date = d
            ∧ (writtenRow s code st).event_type = t
        · obtain ⟨h1, h2, h3⟩ := h
          have : checkinCount s.checkins sid d t = 0 := by
            rw [← h1, ← h2, ← h3]
            exact hzero
          rw [if_pos ⟨h1, h2, h3⟩, this]
        · rw [if_neg h]
          simpa using hchk sid d t
      · intro sid h
        replace h : 0 < checkinCount (s.checkins ++ [writtenRow s code st])
            sid s.today s.event_type := h
        show sid ∈ insert code s.checkedin_students
        by_cases hsid : sid = code
        · rw [hsid]; exact Finset.mem_insert_self ..
        · apply Finset.mem_insert_of_mem
          apply hcov sid
          rwa [checkinCount_append_single, if_neg, Nat.add_zero] at h
          rintro ⟨h1, -, -⟩
          exact hsid h1.symm

/-- The message handler only extends the dedup set. -/
theorem oqf_checkedin_mono (s : ScanState) (code : String) :
    s.checkedin_students ⊆ (on_scan_screen_qr_code_found s code).1.checkedin_students := by
  cases hf : findStudent s.students code with
  | none => rw [oqf_unknown hf]
  | some st =>
    by_cases hc : code ∈ s.checkedin_students
    · rw [oqf_duplicate hf hc]
    · rw [oqf_write hf hc]
      exact Finset.subset_insert ..

/-- Once a student is in the dedup set, the handler never writes another
row for that student, at any key. -/
theorem oqf_count_of_mem {s : ScanState} {sid : String}
    (hsid : sid ∈ s.checkedin_students) (code : String) (d : Nat) (t : EventType) :
    checkinCount (on_scan_screen_qr_code_found s code).1.checkins sid d t
      = checkinCount s.checkins sid d t := by
  cases hf : findStudent s.students code with
  | none => rw [oqf_unknown hf]
  | some st =>
    by_cases hc : code ∈ s.checkedin_students
    · rw [oqf_duplicate hf hc]
    · rw [oqf_write hf hc]
      show checkinCount (s.checkins ++ [writtenRow s code st]) sid d t = _
      rw [checkinCount_append_single, if_neg, Nat.add_zero]
      rintro ⟨h1, -, -⟩
      have h1c : code = sid := h1
      rw [h1c] at hc
      exact hc hsid

/-- One scan tick leaves the roster and the session key alone. -/
theorem scanTick_fields (s : ScanState) (qr : Option String) :
    (scanTick s qr).1.students = s.students ∧
    (scanTick s qr).1.event_type = s.event_type ∧
    (scanTick s qr).1.today = s.today := by
  cases qr with
  | none => refine ⟨?_, ?_, ?_⟩ <;> trivial
  | some code =>
    by_cases hm : code ∈ s.scanned_students
    · simp only [scanTick, if_pos hm]
      refine ⟨?_, ?_, ?_⟩ <;> trivial
    · rcases h2 : on_scan_screen_qr_code_found
          { s with scanned_students := insert code s.scanned_students } code with ⟨s2, out⟩
      have hf := oqf_fields { s with scanned_students := insert code s.scanned_students } code
      rw [h2] at hf
      simp only [scanTick, if_neg hm, h2]
      by_cases hg : surveyGateCond
          { s with scanned_students := insert code s.scanned_students } code = true
      · simp only [if_pos hg]
        exact ⟨hf.1, hf.2.1, hf.2.2.1⟩
      · simp only [if_neg hg]
        exact ⟨hf.1, hf.2.1, hf.2.2.1⟩

/-- One scan tick preserves the session invariant. -/
theorem scanTick_inv (s : ScanState) (qr : Option String) (hinv : sessionInv s) :
    sessionInv (scanTick s qr).1 := by
  cases qr with
  | none => exact hinv
  | some code =>
    by_cases hm : code ∈ s.scanned_students
    · simp only [scanTick, if_pos hm]
      exact hinv
    · have hinv1 : sessionInv { s with scanned_students := insert code s.scanned_students } :=
        ⟨hinv.1, hinv.2⟩
      have hp := oqf_preserves_inv (s := { s with
        scanned_students := insert code s.scanned_students }) code hinv1
      rcases h2 : on_scan_screen_qr_code_found
          { s with scanned_students := insert code s.scanned_students } code with ⟨s2, out⟩
      rw [h2] at hp
      simp only [scanTick, if_neg hm, h2]
      by_cases hg : surveyGateCond
          { s with scanned_students := insert code s.scanned_students } code = true
      · simp only [if_pos hg]
        exact ⟨hp.1, hp.2⟩
      · simp only [if_neg hg]
        exact hp

/-- One scan tick keeps dedup members and never touches their rows. -/
theorem scanTick_mem_stable {s : ScanState} {sid : String}
    (hsid : sid ∈ s.checkedin_students) (qr : Option String) :
    sid ∈ (scanTick s qr).1.checkedin_students ∧
    ∀ d t, checkinCount (scanTick s qr).1.checkins sid d t
      = checkinCount s.checkins sid d t := by
  cases qr with
  | none => exact ⟨hsid, by intros; trivial⟩
  | some code =>
    by_cases hm : code ∈ s.scanned_students
    · simp only [scanTick, if_pos hm]
      exact ⟨hsid, by intros; trivial⟩
    · have hsid1 : sid ∈ ({ s with
          scanned_students := insert code s.scanned_students } : ScanState).checkedin_students :=
        hsid
      have hmono := oqf_checkedin_mono
        { s with scanned_students := insert code s.scanned_students } code
      have hcnt := fun d t => oqf_count_of_mem hsid1 code d t
      rcases h2 : on_scan_screen_qr_code_found
          { s with scanned_students := insert code s.scanned_students } code with ⟨s2, out⟩
      rw [h2] at hmono hcnt
      simp only [scanTick, if_neg hm, h2]
      by_cases hg : surveyGateCond
          { s with scanned_students := insert code s.scanned_students } code = true
      · simp only [if_pos hg]
        exact ⟨hmono hsid1, hcnt⟩
      · simp only [if_neg hg]
        exact ⟨hmono hsid1, hcnt⟩

/-- One session step leaves the roster and the session key alone. -/
theorem sessionStep_fields (s : ScanState) (e : SessionEvent) :
    (sessionStep s e).1.students = s.students ∧
    (sessionStep s e).1.event_type = s.event_type ∧
    (sessionStep s e).1.today = s.today := by
  cases e with
  | tick qr =>
    by_cases hp : s.phase = Phase.Scanning
    · simp only [sessionStep, if_pos hp]
      exact scanTick_fields s qr
    · simp only [sessionStep, if_neg hp]
      refine ⟨?_, ?_, ?_⟩ <;> trivial
  | surveyDone =>
    by_cases hp : s.phase = Phase.SurveyPaused
    · simp only [sessionStep, if_pos hp]
      refine ⟨?_, ?_, ?_⟩ <;> trivial
    · simp only [sessionStep, if_neg hp]
      refine ⟨?_, ?_, ?_⟩ <;> trivial
  | discardFires code =>
    by_cases hp : code ∈ s.pending_discards
    · simp only [sessionStep, if_pos hp]
      refine ⟨?_, ?_, ?_⟩ <;> trivial
    · simp only [sessionStep, if_neg hp]
      refine ⟨?_, ?_, ?_⟩ <;> trivial
  | exitRequest ok =>
    by_cases hp : s.phase = Phase.Scanning
    · simp only [sessionStep, if_pos hp, action_exit_scan_mode]
      by_cases hok : ok = true
      · simp only [if_pos hok]
        refine ⟨?_, ?_, ?_⟩ <;> trivial
      · simp only [if_neg hok]
        refine ⟨?_, ?_, ?_⟩ <;> trivial
    · simp only [sessionStep, if_neg hp]
      refine ⟨?_, ?_, ?_⟩ <;> trivial

/-- One session step preserves the session invariant. -/
theorem sessionStep_inv (s : ScanState) (e : SessionEvent) (hinv : sessionInv s) :
    sessionInv (sessionStep s e).1 := by
  cases e with
  | tick qr =>
    by_cases hp : s.phase = Phase.Scanning
    · simp only [sessionStep, if_pos hp]
      exact scanTick_inv s qr hinv
    · simp only [sessionStep, if_neg hp]
      exact hinv
  | surveyDone =>
    by_cases hp : s.phase = Phase.SurveyPaused
    · simp only [sessionStep, if_pos hp]
      exact ⟨hinv.1, hinv.2⟩
    · simp only [sessionStep, if_neg hp]
      exact hinv
  | discardFires code =>
    by_cases hp : code ∈ s.pending_discards
    · simp only [sessionStep, if_pos hp, discard_scanned_code]
      exact ⟨hinv.1, hinv.2⟩
    · simp only [sessionStep, if_neg hp]
      exact hinv
  | exitRequest ok =>
    by_cases hp : s.phase = Phase.Scanning
    · simp only [sessionStep, if_pos hp, action_exit_scan_mode]
      by_cases hok : ok = true
      · simp only [if_pos hok]
        exact ⟨hinv.1, hinv.2⟩
      · simp only [if_neg hok]
        exact ⟨hinv.1, hinv.2⟩
    · simp only [sessionStep, if_neg hp]
      exact hinv

/-- One session step keeps dedup members and never touches their rows. -/
theorem sessionStep_mem_stable {s : ScanState} {sid : String}
    (hsid : sid ∈ s.checkedin_students) (e : SessionEvent) :
    sid ∈ (sessionStep s e).1.checkedin_students ∧
    ∀ d t, checkinCount (sessionStep s e).1.checkins sid d t
      = checkinCount s.checkins sid d t := by
  cases e with
  | tick qr =>
    by_cases hp : s.phase = Phase.Scanning
    · simp only [sessionStep, if_pos hp]
      exact scanTick_mem_stable hsid qr
    · simp only [sessionStep, if_neg hp]
      exact ⟨hsid, by intros; trivial⟩
  | surveyDone =>
    by_cases hp : s.phase = Phase.SurveyPaused
    · simp only [sessionStep, if_pos hp]
      exact ⟨hsid, by intros; trivial⟩
    · simp only [sessionStep, if_neg hp]
      exact ⟨hsid, by intros; trivial⟩
  | discardFires code =>
    by_cases hp : code ∈ s.pending_discards
    · simp only [sessionStep, if_pos hp, discard_scanned_code]
      exact ⟨hsid, by intros; trivial⟩
    · simp only [sessionStep, if_neg hp]
      exact ⟨hsid, by intros; trivial⟩
  | exitRequest ok =>
    by_cases hp : s.phase = Phase.Scanning
    · simp only [sessionStep, if_pos hp, action_exit_scan_mode]
      by_cases hok : ok = true
      · simp only [if_pos hok]
        exact ⟨hsid, by intros; trivial⟩
      · simp only [if_neg hok]
        exact ⟨hsid, by intros; trivial⟩
    · simp only [sessionStep, if_neg hp]
      exact ⟨hsid, by intros; trivial⟩

/-- Running any event sequence preserves the session invariant. -/
theorem runSession_inv (s : ScanState) (es : List SessionEvent) (hinv : sessionInv s) :
    sessionInv (runSession s es) := by
  induction es generalizing s with
  | nil => exact hinv
  | cons e es ih => exact ih (sessionStep s e).1 (sessionStep_inv s e hinv)

/-- Running any event sequence leaves the roster and session key alone. -/
theorem runSession_fields (s : ScanState) (es : List SessionEvent) :
    (runSession s es).students = s.students ∧
    (runSession s es).event_type = s.event_type ∧
    (runSession s es).today = s.today := by
  induction es generalizing s with
  | nil => refine ⟨?_, ?_, ?_⟩ <;> trivial
  | cons e es ih =>
    have h1 := sessionStep_fields s e
    have h2 := ih (sessionStep s e).1
    exact ⟨h2.1.trans h1.1, h2.2.1.trans h1.2.1, h2.2.2.trans h1.2.2⟩

/-- Running any event sequence keeps dedup members and their rows. -/
theorem runSession_mem_stable {s : ScanState} {sid : String}
    (hsid : sid ∈ s.checkedin_students) (es : List SessionEvent) :
    sid ∈ (runSession s es).checkedin_students ∧
    ∀ d t, checkinCount (runSession s es).checkins sid d t
      = checkinCount s.checkins sid d t := by
  induction es generalizing s with
  | nil => exact ⟨hsid, by intros; trivial⟩
  | cons e es ih =>
    have h1 := sessionStep_mem_stable hsid e
    have h2 := ih (s := (sessionStep s e).1) h1.1
    exact ⟨h2.1, fun d t => (h2.2 d t).trans (h1.2 d t)⟩

/-! ## Theorems on the intake loop -/

/-- C1: a session started on a table with at most one checkin per
(student, event_date, event_type) key preserves that invariant through
every sequence of session events, and a scan of a student already in the
per-event dedup set produces the DuplicateCheckin outcome and leaves the
checkins table untouched. -/
theorem C1_at_most_one_checkin_per_key :
    (∀ (roster : List Student) (events : List EventRow) (ckins : List Checkin)
        (today : Nat) (etype : EventType) (survey : Option Survey)
        (es : List SessionEvent),
      checkinInv ckins →
      checkinInv (runSession
        (set_event_type_and_start_scanning roster events ckins today etype survey).1
        es).checkins) ∧
    (∀ (s : ScanState) (code : String) (st : Student),
      findStudent s.students code = some st →
      code ∈ s.checkedin_students →
      (on_scan_screen_qr_code_found s code).2 = Outcome.DuplicateCheckin ∧
      (on_scan_screen_qr_code_found s code).1.checkins = s.checkins) := by
  constructor
  · intro roster events ckins today etype survey es hinv
    have hinv0 : sessionInv
        (set_event_type_and_start_scanning roster events ckins today etype survey).1 := by
      refine ⟨hinv, ?_⟩
      intro sid h
      exact List.mem_toFinset.mpr (mem_get_checkedin_students.mpr h)
    exact (runSession_inv _ es hinv0).1
  · intro s code st hf hc
    rw [oqf_duplicate hf hc]
    exact ⟨rfl, rfl⟩

/-- C1 witness: a session over one student with repeated scans of the
same code keeps the invariant, and a duplicate scan in the example state
logs DuplicateCheckin without a write. -/
theorem C1_at_most_one_checkin_per_key_witness :
    checkinInv (runSession
      (set_event_type_and_start_scanning [annStudent] [] [] 10 EventType.MEETING none).1
      [SessionEvent.tick (some "A"), SessionEvent.discardFires "A",
       SessionEvent.tick (some "A")]).checkins ∧
    ((on_scan_screen_qr_code_found demoState "A").2 = Outcome.DuplicateCheckin ∧
     (on_scan_screen_qr_code_found demoState "A").1.checkins = demoState.checkins) :=
  ⟨C1_at_most_one_checkin_per_key.1 [annStudent] [] [] 10 EventType.MEETING none
      [SessionEvent.tick (some "A"), SessionEvent.discardFires "A",
       SessionEvent.tick (some "A")]
      (by intro sid d t; simp [checkinCount]),
   C1_at_most_one_checkin_per_key.2 demoState "A" annStudent (by decide) (by decide)⟩

/-- C2: starting a session seeds the dedup set with exactly the students
of get_checkedin_students for (today, event_type); afterwards a student
with a previously recorded checkin for that key stays in the dedup set
through any event sequence, keeps the same number of stored rows, and a
fresh scan of that student yields DuplicateCheckin without a write. -/
theorem C2_preseed_dedup_set (roster : List Student) (events : List EventRow)
    (ckins : List Checkin) (today : Nat) (etype : EventType) (survey : Option Survey)
    (sid : String) (st : Student) (es : List SessionEvent)
    (hprev : 0 < checkinCount ckins sid today etype)
    (hfind : findStudent roster sid = some st) :
    (set_event_type_and_start_scanning roster events ckins today
        etype survey).1.checkedin_students
      = (Checkin.get_checkedin_students ckins today etype).toFinset ∧
    sid ∈ (runSession (set_event_type_and_start_scanning roster events ckins today
        etype survey).1 es).checkedin_students ∧
    checkinCount (runSession (set_event_type_and_start_scanning roster events ckins
        today etype survey).1 es).checkins sid today etype
      = checkinCount ckins sid today etype ∧
    (sid ∉ (runSession (set_event_type_and_start_scanning roster events ckins today
        etype survey).1 es).scanned_students →
     (runSession (set_event_type_and_start_scanning roster events ckins today
        etype survey).1 es).phase = Phase.Scanning →
     (sessionStep (runSession (set_event_type_and_start_scanning roster events ckins
        today etype survey).1 es) (SessionEvent.tick (some sid))).2
        = some Outcome.DuplicateCheckin ∧
     (sessionStep (runSession (set_event_type_and_start_scanning roster events ckins
        today etype survey).1 es) (SessionEvent.tick (some sid))).1.checkins
        = (runSession (set_event_type_and_start_scanning roster events ckins today
            etype survey).1 es).checkins) := by
  have hs0 : sid ∈ (set_event_type_and_start_scanning roster events ckins today
      etype survey).1.checkedin_students :=
    List.mem_toFinset.mpr (mem_get_checkedin_students.mpr hprev)
  have hstable := runSession_mem_stable hs0 es
  have hfields := runSession_fields
    (set_event_type_and_start_scanning roster events ckins today etype survey).1 es
  refine ⟨rfl, hstable.1, hstable.2 today etype, ?_⟩
  intro hnotscanned hphase
  have hfind2 : findStudent
      ({ runSession (set_event_type_and_start_scanning roster events ckins today
          etype survey).1 es with
         scanned_students := insert sid (runSession (set_event_type_and_start_scanning
           roster events ckins today etype survey).1 es).scanned_students }
        : ScanState).students sid = some st := by
    show findStudent (runSession (set_event_type_and_start_scanning roster events ckins
      today etype survey).1 es).students sid = some st
    rw [hfields.1]
    exact hfind
  have hmem2 : sid ∈ ({ runSession (set_event_type_and_start_scanning roster events
      ckins today etype survey).1 es with
      scanned_students := insert sid (runSession (set_event_type_and_start_scanning
        roster events ckins today etype survey).1 es).scanned_students }
      : ScanState).checkedin_students := hstable.1
  simp only [sessionStep, if_pos hphase, scanTick, if_neg hnotscanned,
    oqf_duplicate hfind2 hmem2]
  by_cases hg : surveyGateCond
      { runSession (set_event_type_and_start_scanning roster events ckins today
          etype survey).1 es with
        scanned_students := insert sid (runSession (set_event_type_and_start_scanning
          roster events ckins today etype survey).1 es).scanned_students } sid = true
  · simp only [if_pos hg]
    exact ⟨trivial, trivial⟩
  · simp only [if_neg hg]
    exact ⟨trivial, trivial⟩

/-- C2 witness: a table holding a prior checkin of student A for
(date 10, MEETING) seeds the set with A; after an empty event sequence a
scan of A reports DuplicateCheckin and writes nothing. -/
theorem C2_preseed_dedup_set_witness :
    (set_event_type_and_start_scanning [annStudent] []
        [{ checkin_id := 1, student_id := "A", event_type := EventType.MEETING,
           event_date := 10, timestamp := 0, inactive := false }]
        10 EventType.MEETING none).1.checkedin_students
      = (Checkin.get_checkedin_students
          [{ checkin_id := 1, student_id := "A", event_type := EventType.MEETING,
             event_date := 10, timestamp := 0, inactive := false }]
          10 EventType.MEETING).toFinset ∧
    "A" ∈ (runSession (set_event_type_and_start_scanning [annStudent] []
        [{ checkin_id := 1, student_id := "A", event_type := EventType.MEETING,
           event_date := 10, timestamp := 0, inactive := false }]
        10 EventType.MEETING none).1 []).checkedin_students ∧
    checkinCount (runSession (set_event_type_and_start_scanning [annStudent] []
        [{ checkin_id := 1, student_id := "A", event_type := EventType.MEETING,
           event_date := 10, timestamp := 0, inactive := false }]
        10 EventType.MEETING none).1 []).checkins "A" 10 EventType.MEETING
      = checkinCount
          [{ checkin_id := 1, student_id := "A", event_type := EventType.MEETING,
             event_date := 10, timestamp := 0, inactive := false }]
          "A" 10 EventType.MEETING ∧
    ("A" ∉ (runSession (set_event_type_and_start_scanning [annStudent] []
        [{ checkin_id := 1, student_id := "A", event_type := EventType.MEETING,
           event_date := 10, timestamp := 0, inactive := false }]
        10 EventType.MEETING none).1 []).scanned_students →
     (runSession (set_event_type_and_start_scanning [annStudent] []
        [{ checkin_id := 1, student_id := "A", event_type := EventType.MEETING,
           event_date := 10, timestamp := 0, inactive := false }]
        10 EventType.MEETING none).1 []).phase = Phase.Scanning →
     (sessionStep (runSession (set_event_type_and_start_scanning [annStudent] []
        [{ checkin_id := 1, student_id := "A", event_type := EventType.MEETING,
           event_date := 10, timestamp := 0, inactive := false }]
        10 EventType.MEETING none).1 []) (SessionEvent.tick (some "A"))).2
        = some Outcome.DuplicateCheckin ∧
     (sessionStep (runSession (set_event_type_and_start_scanning [annStudent] []
        [{ checkin_id := 1, student_id := "A", event_type := EventType.MEETING,
           event_date := 10, timestamp := 0, inactive := false }]
        10 EventType.MEETING none).1 []) (SessionEvent.tick (some "A"))).1.checkins
        = (runSession (set_event_type_and_start_scanning [annStudent] []
            [{ checkin_id := 1, student_id := "A", event_type := EventType.MEETING,
               event_date := 10, timestamp := 0, inactive := false }]
            10 EventType.MEETING none).1 []).checkins) :=
  C2_preseed_dedup_set [annStudent] []
    [{ checkin_id := 1, student_id := "A", event_type := EventType.MEETING,
       event_date := 10, timestamp := 0, inactive := false }]
    10 EventType.MEETING none "A" annStudent [] (by decide) (by decide)

/-- The survey-dialog condition of scan_qr_codes holds exactly when a
survey is attached and the scanned code belongs to a student with no
deactivation date.  The dedup set plays no part in it. -/
theorem surveyGateCond_iff {s : ScanState} {code : String} :
    surveyGateCond s code = true ↔
      s.survey.isSome = true ∧
      ∃ st, findStudent s.students code = some st ∧ st.deactivated_on = none := by
  unfold surveyGateCond
  cases hf : findStudent s.students code with
  | none => simp
  | some st =>
    cases hd : st.deactivated_on with
    | none => simp [hd]
    | some d => simp [hd]

/-- C3 as amended: for a scan that passes the debounce set, the survey
dialog opens exactly when a survey is attached and the scanned code
belongs to an active student — whether or not the check-in outcome was
Success; the dialog never opens for unknown codes or deactivated
students, and on its completion or cancellation the session scans
again. -/
theorem C3_survey_gate_iff_known_active (s : ScanState) (code : String)
    (hphase : s.phase = Phase.Scanning) (hdb : code ∉ s.scanned_students) :
    ((sessionStep s (SessionEvent.tick (some code))).1.phase = Phase.SurveyPaused
      ↔ s.survey.isSome = true ∧
        ∃ st, findStudent s.students code = some st ∧ st.deactivated_on = none) ∧
    (∀ s2 : ScanState, s2.phase = Phase.SurveyPaused →
      (sessionStep s2 SessionEvent.surveyDone).1.phase = Phase.Scanning) := by
  constructor
  · have hf := oqf_fields { s with scanned_students := insert code s.scanned_students } code
    simp only [sessionStep, if_pos hphase, scanTick, if_neg hdb]
    by_cases hg : surveyGateCond
        { s with scanned_students := insert code s.scanned_students } code = true
    · simp only [if_pos hg]
      constructor
      · intro _
        exact surveyGateCond_iff.mp hg
      · intro _
        trivial
    · simp only [if_neg hg]
      constructor
      · intro hps
        exfalso
        rw [hf.2.2.2.1] at hps
        have h3 : s.phase = Phase.SurveyPaused := hps
        rw [hphase] at h3
        exact Phase.noConfusion h3
      · intro hr
        exact absurd (surveyGateCond_iff.mpr hr) hg
  · intro s2 hp2
    simp [sessionStep, hp2]

/-- C3 witness: in the example state the survey dialog opens for the
known active student A, and a paused session resumes scanning. -/
theorem C3_survey_gate_iff_known_active_witness :
    (sessionStep demoState (SessionEvent.tick (some "A"))).1.phase
      = Phase.SurveyPaused ∧
    (sessionStep { demoState with phase := Phase.SurveyPaused }
        SessionEvent.surveyDone).1.phase = Phase.Scanning :=
  ⟨(C3_survey_gate_iff_known_active demoState "A" (by decide) (by decide)).1.mpr
      ⟨by decide, annStudent, by decide, by decide⟩,
   (C3_survey_gate_iff_known_active demoState "A" (by decide) (by decide)).2
      { demoState with phase := Phase.SurveyPaused } (by decide)⟩

/-- C3 counterexample to the claim as stated: student A is already in the
dedup set, so the scan outcome is DuplicateCheckin, not Success — yet the
survey dialog still opens, because the condition in scan_qr_codes never
consults the dedup set. -/
theorem C3_counterexample_gate_opens_on_duplicate :
    (scanTick demoState (some "A")).2 = some Outcome.DuplicateCheckin ∧
    (scanTick demoState (some "A")).1.phase = Phase.SurveyPaused := by
  decide

/-- C6 as amended: a repeat of a code still in the debounce set is
ignored entirely; a fresh code enters the debounce set and, when it
belongs to a known student, its deferred removal is scheduled — but an
unknown code schedules no removal, because the handler returns before
discard_scanned_code. -/
theorem C6_debounce_and_removal_scheduling (s : ScanState) (code : String)
    (hphase : s.phase = Phase.Scanning) :
    (code ∈ s.scanned_students →
      sessionStep s (SessionEvent.tick (some code)) = (s, none)) ∧
    (code ∉ s.scanned_students →
      code ∈ (sessionStep s (SessionEvent.tick (some code))).1.scanned_students ∧
      ((∃ st, findStudent s.students code = some st) →
        (sessionStep s (SessionEvent.tick (some code))).1.pending_discards
          = code :: s.pending_discards) ∧
      (findStudent s.students code = none →
        (sessionStep s (SessionEvent.tick (some code))).1.pending_discards
          = s.pending_discards)) := by
  constructor
  · intro hm
    simp [sessionStep, hphase, scanTick, hm]
  · intro hm
    have hf := oqf_fields { s with scanned_students := insert code s.scanned_students } code
    simp only [sessionStep, if_pos hphase, scanTick, if_neg hm]
    refine ⟨?_, ?_, ?_⟩
    · by_cases hg : surveyGateCond
          { s with scanned_students := insert code s.scanned_students } code = true
      · simp only [if_pos hg]
        rw [show ({ (on_scan_screen_qr_code_found { s with
            scanned_students := insert code s.scanned_students } code).1 with
            phase := Phase.SurveyPaused } : ScanState).scanned_students
            = (on_scan_screen_qr_code_found { s with
                scanned_students := insert code s.scanned_students } code).1.scanned_students
          from rfl, hf.2.2.2.2.2]
        exact Finset.mem_insert_self ..
      · simp only [if_neg hg]
        rw [hf.2.2.2.2.2]
        exact Finset.mem_insert_self ..
    · rintro ⟨st, hst⟩
      have hst1 : findStudent ({ s with
          scanned_students := insert code s.scanned_students } : ScanState).students code
          = some st := hst
      have hpend : (on_scan_screen_qr_code_found { s with
          scanned_students := insert code s.scanned_students } code).1.pending_discards
          = code :: s.pending_discards := by
        by_cases hc : code ∈ ({ s with
            scanned_students := insert code s.scanned_students } : ScanState).checkedin_students
        · rw [oqf_duplicate hst1 hc]
        · rw [oqf_write hst1 hc]
      by_cases hg : surveyGateCond
          { s with scanned_students := insert code s.scanned_students } code = true
      · simp only [if_pos hg]
        exact hpend
      · simp only [if_neg hg]
        exact hpend
    · intro hnone
      have hnone1 : findStudent ({ s with
          scanned_students := insert code s.scanned_students } : ScanState).students code
          = none := hnone
      have hpend : (on_scan_screen_qr_code_found { s with
          scanned_students := insert code s.scanned_students } code).1.pending_discards
          = s.pending_discards := by
        rw [oqf_unknown hnone1]
      by_cases hg : surveyGateCond
          { s with scanned_students := insert code s.scanned_students } code = true
      · simp only [if_pos hg]
        exact hpend
      · simp only [if_neg hg]
        exact hpend

/-- C6 witness: a code still in the debounce set is a no-op; a known
fresh code lands in the debounce set with a scheduled removal; an unknown
fresh code lands in the debounce set with no scheduled removal. -/
theorem C6_debounce_and_removal_scheduling_witness :
    sessionStep exitDemoState (SessionEvent.tick (some "A"))
      = (exitDemoState, none) ∧
    "D" ∈ (sessionStep demoState (SessionEvent.tick (some "D"))).1.scanned_students ∧
    (sessionStep demoState (SessionEvent.tick (some "D"))).1.pending_discards
      = "D" :: demoState.pending_discards ∧
    (sessionStep demoState (SessionEvent.tick (some "Z"))).1.pending_discards
      = demoState.pending_discards :=
  ⟨(C6_debounce_and_removal_scheduling exitDemoState "A" (by decide)).1 (by decide),
   ((C6_debounce_and_removal_scheduling demoState "D" (by decide)).2 (by decide)).1,
   ((C6_debounce_and_removal_scheduling demoState "D" (by decide)).2
      (by decide)).2.1 ⟨deeStudent, by decide⟩,
   ((C6_debounce_and_removal_scheduling demoState "Z" (by decide)).2
      (by decide)).2.2 (by decide)⟩

/-- C6 counterexample to the claim as stated: an unknown code is added to
the debounce set, yet no deferred removal is scheduled for it — the
unknown branch of the handler returns before discard_scanned_code. -/
theorem C6_counterexample_unknown_code_gets_no_removal :
    (scanTick demoState (some "ZZZ")).2 = some Outcome.UnknownCode ∧
    "ZZZ" ∈ (scanTick demoState (some "ZZZ")).1.scanned_students ∧
    (scanTick demoState (some "ZZZ")).1.pending_discards = [] := by
  decide

/-- C7 as amended: exiting the session does not cancel the pending
deferred debounce-removal workers; a removal pending at exit time is
still pending in the Exiting phase, and it can still fire there,
discarding its code from the released session. -/
theorem C7_pending_discard_survives_exit (s : ScanState) (code : String)
    (hphase : s.phase = Phase.Scanning) (hc : code ∈ s.pending_discards) :
    (sessionStep s (SessionEvent.exitRequest true)).1.phase = Phase.Exiting ∧
    code ∈ (sessionStep s (SessionEvent.exitRequest true)).1.pending_discards ∧
    sessionStep (sessionStep s (SessionEvent.exitRequest true)).1
        (SessionEvent.discardFires code)
      = (discard_scanned_code
          (sessionStep s (SessionEvent.exitRequest true)).1 code, none) := by
  have hstep : (sessionStep s (SessionEvent.exitRequest true)).1
      = { s with phase := Phase.Exiting } := by
    simp [sessionStep, hphase, action_exit_scan_mode]
  rw [hstep]
  refine ⟨rfl, hc, ?_⟩
  have hc2 : code ∈ ({ s with phase := Phase.Exiting } : ScanState).pending_discards := hc
  simp [sessionStep, hc2]

/-- C7 witness: in the example state with a pending removal for code A,
exit succeeds, the removal is still pending, and it fires afterwards. -/
theorem C7_pending_discard_survives_exit_witness :
    (sessionStep exitDemoState (SessionEvent.exitRequest true)).1.phase
      = Phase.Exiting ∧
    "A" ∈ (sessionStep exitDemoState (SessionEvent.exitRequest true)).1.pending_discards ∧
    sessionStep (sessionStep exitDemoState (SessionEvent.exitRequest true)).1
        (SessionEvent.discardFires "A")
      = (discard_scanned_code
          (sessionStep exitDemoState (SessionEvent.exitRequest true)).1 "A", none) :=
  C7_pending_discard_survives_exit exitDemoState "A" (by decide) (by decide)

/-- C7 counterexample to the claim as stated: after a successful exit the
pending removal for code A is not cancelled — it is still pending in the
Exiting phase and firing it still mutates the session, removing A from
the debounce set. -/
theorem C7_counterexample_removal_runs_after_exit :
    (sessionStep exitDemoState (SessionEvent.exitRequest true)).1.phase
      = Phase.Exiting ∧
    "A" ∈ (sessionStep exitDemoState (SessionEvent.exitRequest true)).1.pending_discards ∧
    "A" ∈ (sessionStep exitDemoState (SessionEvent.exitRequest true)).1.scanned_students ∧
    "A" ∉ (sessionStep (sessionStep exitDemoState
        (SessionEvent.exitRequest true)).1
        (SessionEvent.discardFires "A")).1.scanned_students := by
  decide

/-- C9: a scan by a deactivated student not yet checked in is never
rejected — the row is written with the inactive flag set, the session
logs the warning rather than an error, every earlier row survives the
write, and deactivating a roster entry keeps every student id in the
roster. -/
theorem C9_deactivated_scan_flagged_not_rejected (s : ScanState) (code : String)
    (st : Student) (d : Nat)
    (hfind : findStudent s.students code = some st)
    (hdeact : st.deactivated_on = some d)
    (hc : code ∉ s.checkedin_students) :
    (on_scan_screen_qr_code_found s code).2 = Outcome.DeactivatedWarning ∧
    (on_scan_screen_qr_code_found s code).1.checkins
      = s.checkins ++ [{ checkin_id := s.checkins.length + 1, student_id := code,
                         event_type := s.event_type, event_date := s.today,
                         timestamp := s.now, inactive := true }] ∧
    (∀ c ∈ s.checkins, c ∈ (on_scan_screen_qr_code_found s code).1.checkins) ∧
    (∀ (roster : List Student) (sid : String) (dd : Nat),
      (Student.deactivate roster sid dd).map (fun x => x.student_id)
        = roster.map (fun x => x.student_id)) := by
  have hsome : st.deactivated_on.isSome = true := by
    rw [hdeact]
    rfl
  rw [oqf_write hfind hc]
  refine ⟨by simp [hsome], ?_, ?_, ?_⟩
  · show s.checkins ++ [writtenRow s code st] = _
    simp [writtenRow, hsome]
  · intro c hcmem
    exact List.mem_append_left _ hcmem
  · intro roster sid dd
    unfold Student.deactivate
    rw [List.map_map]
    apply List.map_congr_left
    intro x hx
    simp only [Function.comp_apply, beq_iff_eq]
    split <;> rfl

/-- C9 witness: in the example state extended with one stored row, the
deactivated student D checks in with the inactive flag, the warning
outcome, the prior row intact, and deactivating A keeps both ids. -/
theorem C9_deactivated_scan_flagged_not_rejected_witness :
    (on_scan_screen_qr_code_found warnDemoState "D").2
      = Outcome.DeactivatedWarning ∧
    (on_scan_screen_qr_code_found warnDemoState "D").1.checkins
      = warnDemoState.checkins
        ++ [{ checkin_id := warnDemoState.checkins.length + 1,
              student_id := "D", event_type := warnDemoState.event_type,
              event_date := warnDemoState.today,
              timestamp := warnDemoState.now, inactive := true }] ∧
    annCheckin ∈ (on_scan_screen_qr_code_found warnDemoState "D").1.checkins ∧
    (Student.deactivate [annStudent, deeStudent] "A" 7).map (fun x => x.student_id)
      = [annStudent, deeStudent].map (fun x => x.student_id) :=
  ⟨(C9_deactivated_scan_flagged_not_rejected warnDemoState "D" deeStudent 3
      (by decide) (by decide) (by decide)).1,
   (C9_deactivated_scan_flagged_not_rejected warnDemoState "D" deeStudent 3
      (by decide) (by decide) (by decide)).2.1,
   (C9_deactivated_scan_flagged_not_rejected warnDemoState "D" deeStudent 3
      (by decide) (by decide) (by decide)).2.2.1 annCheckin (by decide),
   (C9_deactivated_scan_flagged_not_rejected warnDemoState "D" deeStudent 3
      (by decide) (by decide) (by decide)).2.2.2 [annStudent, deeStudent] "A" 7⟩

end Frcattend
